import Mathlib

/-!
Shallow embedding of the KlicStudio MCP adapter (src/klicstudio-mcp.py) and
verification of its specification claims.

The adapter holds one piece of mutable state, the upstream base URL
(`KLICSTUDIO_BASE_URL`).  Each tool is embedded as a pure function: the
state is passed explicitly, upstream HTTP responses are passed in as
already-parsed values, and each tool returns its response envelope
(together with the successor state where relevant).  Python-specific
operations that the tools rely on (`str.rstrip`, `str.startswith`,
truthiness of optional strings and lists, dictionary update and lookup,
string indexing) are embedded as their own named functions.
-/

namespace KlicStudio

/-- Embodies Python `pre_.isPrefixOf`-style check `s.startswith(pre_)`:
`pre_` is a prefix of the character list of `s`. -/
def pyStartsWith (s pre_ : String) : Bool :=
  pre_.data.isPrefixOf s.data

/-- Embodies Python `s.rstrip("/")`: remove every trailing `/` character. -/
def pyRstripSlash (s : String) : String :=
  ⟨s.data.rdropWhile (fun c => c == '/')⟩

/-- True when the last character of `s` is `/`. -/
def endsWithSlash (s : String) : Bool :=
  match s.data.getLast? with
  | some c => c == '/'
  | none => false

/-- Module-level default of `KLICSTUDIO_BASE_URL` in the source. -/
def DEFAULT_KLICSTUDIO_URL : String := "http://127.0.0.1:8888"

/-- Validation performed by `set_klicstudio_base_url`:
`new_url.startswith("http://") or new_url.startswith("https://")`. -/
def validBaseUrl (new_url : String) : Bool :=
  pyStartsWith new_url "http://" || pyStartsWith new_url "https://"

/-- Data part of the envelope returned by `get_klicstudio_base_url`. -/
structure GetUrlData where
  klicstudio_base_url : String
deriving Repr, DecidableEq

/-- Data part of the envelope returned by `set_klicstudio_base_url`:
on failure the dict carries `previous_url`, on success it carries
`new_klicstudio_base_url` and `previous_klicstudio_base_url`. -/
inductive SetUrlData where
  | failure (previous_url : String)
  | success (new_klicstudio_base_url : String) (previous_klicstudio_base_url : String)
deriving Repr, DecidableEq

/-- The uniform `\x7berror, msg, data\x7d` envelope, with the data type
specialised per tool. -/
structure Envelope (α : Type) where
  error : Int
  msg : String
  data : α
deriving Repr, DecidableEq

/-- Embedding of `get_klicstudio_base_url`: reads the state `st`
(the current `KLICSTUDIO_BASE_URL`) and reports it. -/
def get_klicstudio_base_url (st : String) : Envelope GetUrlData :=
  ⟨0, "当前配置获取成功", ⟨st⟩⟩

/-- Embedding of `set_klicstudio_base_url`: takes the current state `st` and
the argument `new_url`, returns the successor state and the envelope. -/
def set_klicstudio_base_url (st : String) (new_url : String) : String × Envelope SetUrlData :=
  if validBaseUrl new_url then
    let st' := pyRstripSlash new_url
    (st', ⟨0, "KlicStudio BASE URL 已从 \x27" ++ st ++ "\x27 更新为 \x27" ++ st' ++ "\x27。",
           .success st' st⟩)
  else
    (st, ⟨1, "设置失败：URL 格式不正确，应以 http:// 或 https:// 开头。", .failure st⟩)

/-- The state reached from `st` after a sequence of `set_klicstudio_base_url`
calls with the given arguments (the only tool that writes the state). -/
def applySetCalls (st : String) : List String → String
  | [] => st
  | u :: rest => applySetCalls (set_klicstudio_base_url st u).1 rest

/-- The invariant that actually holds of the stored base URL: it begins with
`http:` or `https:` and has no trailing slash. -/
def baseUrlSchemeOk (st : String) : Prop :=
  (pyStartsWith st "http:" = true ∨ pyStartsWith st "https:" = true) ∧
  endsWithSlash st = false

/-- JSON-ish values that can appear in the subtitle-task payload dict. -/
inductive PayloadVal where
  | pstr (s : String)
  | pint (n : Int)
  | pstrList (l : List String)
deriving Repr, DecidableEq

/-- A Python dict with string keys, embedded as an insertion-ordered
association list without duplicate keys. -/
abbrev Payload := List (String × PayloadVal)

/-- Python dict assignment `d[k] = v`: replaces the value in place when the
key exists, otherwise appends the new pair at the end. -/
def pySetItem (d : Payload) (k : String) (v : PayloadVal) : Payload :=
  match d with
  | [] => [(k, v)]
  | (k0, v0) :: rest => if k0 = k then (k, v) :: rest else (k0, v0) :: pySetItem rest k v

/-- Python dict lookup `d.get(k)` / `k in d`. -/
def pyGetItem (d : Payload) (k : String) : Option PayloadVal :=
  match d with
  | [] => none
  | (k0, v0) :: rest => if k0 = k then some v0 else pyGetItem rest k

/-- Python truthiness of an `Optional[str]` argument: true exactly when it is
present and non-empty. -/
def pyTruthyStr (o : Option String) : Bool :=
  match o with
  | none => false
  | some s => !(s == "")

/-- Python truthiness of an `Optional[List[str]]` argument: true exactly when
it is present and non-empty. -/
def pyTruthyList (o : Option (List String)) : Bool :=
  match o with
  | none => false
  | some l => !l.isEmpty

/-- The initial payload dict literal of `start_klicstudio_subtitle_task`. -/
def taskPayloadBase (media_url_on_klicstudio language : String) (bilingual : Bool)
    (translation_subtitle_pos : Int) (tts modal_filter : Bool)
    (embed_subtitle_video_type : String) : Payload :=
  [("url", .pstr media_url_on_klicstudio),
   ("language", .pstr language),
   ("bilingual", .pint (if bilingual then 1 else 2)),
   ("translation_subtitle_pos", .pint translation_subtitle_pos),
   ("tts", .pint (if tts then 1 else 2)),
   ("modal_filter", .pint (if modal_filter then 1 else 2)),
   ("embed_subtitle_video_type", .pstr embed_subtitle_video_type)]

/-- The `if origin_lang: ... else: if target_lang: ...` block. -/
def taskPayloadOriginLang (p : Payload) (origin_lang target_lang : Option String)
    (language : String) : Payload :=
  if pyTruthyStr origin_lang then
    pySetItem p "origin_lang" (.pstr (origin_lang.getD ""))
  else
    if pyTruthyStr target_lang then
      pySetItem p "origin_lang" (.pstr language)
    else p

/-- The `if target_lang: ...` block. -/
def taskPayloadTargetLang (p : Payload) (target_lang : Option String) : Payload :=
  if pyTruthyStr target_lang then
    pySetItem p "target_lang" (.pstr (target_lang.getD ""))
  else p

/-- The TTS sub-parameter block, guarded by the already-encoded payload field
`tts` being the integer `1`. -/
def taskPayloadTts (p : Payload) (tts_voice_code : Option Int)
    (tts_voice_clone_src_file_url : Option String) : Payload :=
  if pyGetItem p "tts" = some (.pint 1) then
    let p1 :=
      match tts_voice_code with
      | some c => pySetItem p "tts_voice_code" (.pint c)
      | none => p
    if pyTruthyStr tts_voice_clone_src_file_url then
      pySetItem p1 "tts_voice_clone_src_file_url"
        (.pstr (tts_voice_clone_src_file_url.getD ""))
    else p1
  else p

/-- The two optional vertical-title fields, each inserted when the argument
is not `None` (empty strings are inserted too). -/
def taskPayloadTitles (p : Payload)
    (vertical_major_title vertical_minor_title : Option String) : Payload :=
  let p1 :=
    match vertical_major_title with
    | some t => pySetItem p "vertical_major_title" (.pstr t)
    | none => p
  match vertical_minor_title with
  | some t => pySetItem p1 "vertical_minor_title" (.pstr t)
  | none => p1

/-- The `if replace_words: payload["replace"] = replace_words` statement. -/
def taskPayloadReplace (p : Payload) (replace_words : Option (List String)) : Payload :=
  if pyTruthyList replace_words then
    pySetItem p "replace" (.pstrList (replace_words.getD []))
  else p

/-- Embedding of the payload assembly in `start_klicstudio_subtitle_task`,
as the composition of the statement blocks of the source in order. -/
def start_klicstudio_subtitle_task_payload
    (media_url_on_klicstudio : String)
    (language : String)
    (origin_lang : Option String)
    (target_lang : Option String)
    (bilingual : Bool)
    (translation_subtitle_pos : Int)
    (tts : Bool)
    (tts_voice_code : Option Int)
    (tts_voice_clone_src_file_url : Option String)
    (modal_filter : Bool)
    (embed_subtitle_video_type : String)
    (vertical_major_title : Option String)
    (vertical_minor_title : Option String)
    (replace_words : Option (List String)) : Payload :=
  taskPayloadReplace
    (taskPayloadTitles
      (taskPayloadTts
        (taskPayloadTargetLang
          (taskPayloadOriginLang
            (taskPayloadBase media_url_on_klicstudio language bilingual
              translation_subtitle_pos tts modal_filter embed_subtitle_video_type)
            origin_lang target_lang language)
          target_lang)
        tts_voice_code tts_voice_clone_src_file_url)
      vertical_major_title vertical_minor_title)
    replace_words

/-- A download-URL field of a task-details response: absent, present but not
a string, or a string (the only case the adapter rewrites). -/
inductive UrlField where
  | absent
  | notStr
  | str (s : String)
deriving Repr, DecidableEq

/-- One entry of the `subtitle_info` list (only `download_url` is touched by
the adapter; other keys pass through opaquely). -/
structure SubItem where
  download_url : UrlField
deriving Repr, DecidableEq

/-- The `subtitle_info` field: absent, present but not a list, or a list of
entries. -/
inductive SubInfoField where
  | absent
  | notList
  | items (l : List SubItem)
deriving Repr, DecidableEq

/-- One synthesized potential-embedded-video entry appended on completion. -/
structure EmbedEntry where
  name : String
  download_url : String
deriving Repr, DecidableEq

/-- The `data` object of a task-details response, restricted to the fields
the adapter reads or rewrites. `process_percent = none` models an absent
completion percentage (which compares unequal to `100`, as in Python). -/
structure TaskData where
  process_percent : Option Int
  subtitle_info : SubInfoField
  speech_download_url : UrlField
  potential_embedded_video_urls : Option (List EmbedEntry)
deriving Repr, DecidableEq

/-- A parsed upstream task-details response; `data = none` models a response
without a `data` key. -/
structure TaskResp where
  error : Int
  msg : String
  data : Option TaskData
deriving Repr, DecidableEq

/-- The inline absolutization expression used for both subtitle and speech
download URLs: prepend the rstripped base URL, inserting a `/` when the
relative URL lacks a leading one. -/
def absolutizeUrl (base rel : String) : String :=
  if pyStartsWith rel "/" then pyRstripSlash base ++ rel
  else pyRstripSlash base ++ "/" ++ rel

/-- Rewrite of one `subtitle_info` entry `download_url`: only string values
not starting with `http` are absolutized. -/
def rewriteItemUrl (base : String) (u : UrlField) : UrlField :=
  match u with
  | .str s => if pyStartsWith s "http" then .str s else .str (absolutizeUrl base s)
  | x => x

/-- Rewrite of `speech_download_url`: only non-empty string values not
starting with `http` are absolutized (the source additionally tests the
string for truthiness). -/
def rewriteSpeechUrl (base : String) (u : UrlField) : UrlField :=
  match u with
  | .str s =>
      if !(s == "") && !(pyStartsWith s "http") then .str (absolutizeUrl base s)
      else .str s
  | x => x

/-- The synthesized horizontal-embed video link for a completed task. -/
def horizontalEmbedEntry (base task_id : String) : EmbedEntry :=
  ⟨"嵌入字幕的横屏视频 (可能存在)",
   pyRstripSlash base ++ "/api/file/tasks/" ++ task_id ++ "/output/horizontal_embed.mp4"⟩

/-- The synthesized vertical-embed video link for a completed task. -/
def verticalEmbedEntry (base task_id : String) : EmbedEntry :=
  ⟨"嵌入字幕的竖屏视频 (可能存在)",
   pyRstripSlash base ++ "/api/file/tasks/" ++ task_id ++ "/output/vertical_embed.mp4"⟩

/-- Embedding of the response post-processing of
`get_klicstudio_subtitle_task_details`: when the upstream envelope reports
`error = 0` and carries a `data` object, absolutize the subtitle and speech
download URLs and, when `process_percent == 100`, append the two synthesized
embed-video links. -/
def get_klicstudio_subtitle_task_details (base task_id : String) (resp : TaskResp) : TaskResp :=
  if resp.error = 0 then
    match resp.data with
    | some d =>
      let d1 : TaskData :=
        { d with subtitle_info :=
            match d.subtitle_info with
            | .items l => .items (l.map fun it => ⟨rewriteItemUrl base it.download_url⟩)
            | x => x }
      let d2 : TaskData :=
        { d1 with speech_download_url := rewriteSpeechUrl base d1.speech_download_url }
      let d3 : TaskData :=
        if d2.process_percent = some 100 then
          { d2 with
              potential_embedded_video_urls :=
                some ((d2.potential_embedded_video_urls.getD []) ++
                  [horizontalEmbedEntry base task_id, verticalEmbedEntry base task_id]) }
        else d2
      { resp with data := some d3 }
    | none => resp
  else resp

/-- The `file_path` value of an upload response `data` object: a string, or
a list of strings (the two shapes the adapter distinguishes with
`isinstance`). -/
inductive FPVal where
  | fstr (s : String)
  | flist (l : List String)
deriving Repr, DecidableEq

/-- The `data` object of an upload response (only `file_path` is touched). -/
structure UploadData where
  file_path : Option FPVal
deriving Repr, DecidableEq

/-- A parsed upstream upload response; `data = none` models an absent, null
or otherwise falsy `data` value. -/
structure UploadResp where
  error : Int
  msg : String
  data : Option UploadData
deriving Repr, DecidableEq

/-- Python string indexing `s[0]`: the first character as a one-character
string, or an IndexError on the empty string. -/
def pyStrIndex0 (s : String) : Except Unit String :=
  match s.data with
  | [] => .error ()
  | c :: _ => .ok ⟨[c]⟩

/-- Embedding of `upload_file_to_klicstudio`. `st` is the base-URL state
(which the tool never writes), `fs` the set of paths that exist on the
adapter filesystem, `path` the argument, and `upstream` the parsed upload
response. The returned `Bool` records whether the upstream HTTP call was
made. File reading and MIME-type inference only shape the multipart body
and are not modeled. The post-processing mirrors the source exactly: when
`data` is truthy and `file_path` IS a string, the value is replaced by its
`[0]` indexing (an IndexError on the empty string propagates to the
enclosing handler, which returns the generic upload-failure envelope); any
other `file_path` shape, a list in particular, is left untouched. -/
def upload_file_to_klicstudio (st : String) (fs : List String) (path : String)
    (upstream : UploadResp) : String × Bool × UploadResp :=
  if path ∈ fs then
    match upstream.data with
    | some dd =>
      match dd.file_path with
      | some (.fstr s) =>
        match pyStrIndex0 s with
        | .ok s0 => (st, true, { upstream with data := some ⟨some (.fstr s0)⟩ })
        | .error _ => (st, true, ⟨1, "上传文件失败: string index out of range", none⟩)
      | _ => (st, true, upstream)
    | none => (st, true, upstream)
  else
    (st, false, ⟨1, "文件未找到: " ++ path, none⟩)

/-- A byte of a fetched HTTP response body. -/
abbrev Byte := Fin 256

/-- Latin-1 decoding of one byte: the byte value is the code point, checked
against scalar-value validity like any codec output. -/
def latin1DecodeByte (b : Byte) : Option Char :=
  if Nat.isValidChar b.val then some (Char.ofNat b.val) else none

/-- Latin-1 decoding loop over the body bytes. -/
def latin1DecodeList : List Byte → Option (List Char)
  | [] => some []
  | b :: rest =>
    match latin1DecodeByte b with
    | some c => (latin1DecodeList rest).map fun cs => c :: cs
    | none => none

/-- Python `bytes.decode("latin-1")`. -/
def latin1Decode (bs : List Byte) : Option String :=
  (latin1DecodeList bs).map fun cs => ⟨cs⟩

/-- A UTF-8 continuation byte `0x80..0xBF`. -/
def utf8Cont (b : Byte) : Bool :=
  decide (0x80 ≤ b.val) && decide (b.val ≤ 0xBF)

/-- Strict UTF-8 decoding as performed by Python `bytes.decode("utf-8")`:
1-to-4-byte sequences driven by the leading byte, rejecting overlong forms,
surrogates and code points above `0x10FFFF` via the second-byte ranges. -/
def utf8DecodeChars : List Byte → Option (List Char)
  | [] => some []
  | b :: rest =>
    if b.val ≤ 0x7F then
      (utf8DecodeChars rest).map fun cs => Char.ofNat b.val :: cs
    else if 0xC2 ≤ b.val ∧ b.val ≤ 0xDF then
      match rest with
      | b2 :: rest2 =>
        if utf8Cont b2 then
          (utf8DecodeChars rest2).map fun cs =>
            Char.ofNat ((b.val - 0xC0) * 0x40 + (b2.val - 0x80)) :: cs
        else none
      | [] => none
    else if 0xE0 ≤ b.val ∧ b.val ≤ 0xEF then
      match rest with
      | b2 :: b3 :: rest3 =>
        if (if b.val = 0xE0 then decide (0xA0 ≤ b2.val) && decide (b2.val ≤ 0xBF)
            else if b.val = 0xED then decide (0x80 ≤ b2.val) && decide (b2.val ≤ 0x9F)
            else utf8Cont b2) && utf8Cont b3 then
          (utf8DecodeChars rest3).map fun cs =>
            Char.ofNat ((b.val - 0xE0) * 0x1000 + (b2.val - 0x80) * 0x40
              + (b3.val - 0x80)) :: cs
        else none
      | _ => none
    else if 0xF0 ≤ b.val ∧ b.val ≤ 0xF4 then
      match rest with
      | b2 :: b3 :: b4 :: rest4 =>
        if (if b.val = 0xF0 then decide (0x90 ≤ b2.val) && decide (b2.val ≤ 0xBF)
            else if b.val = 0xF4 then decide (0x80 ≤ b2.val) && decide (b2.val ≤ 0x8F)
            else utf8Cont b2) && utf8Cont b3 && utf8Cont b4 then
          (utf8DecodeChars rest4).map fun cs =>
            Char.ofNat ((b.val - 0xF0) * 0x40000 + (b2.val - 0x80) * 0x1000
              + (b3.val - 0x80) * 0x40 + (b4.val - 0x80)) :: cs
        else none
      | _ => none
    else none

/-- Python `bytes.decode("utf-8")`. -/
def utf8Decode (bs : List Byte) : Option String :=
  (utf8DecodeChars bs).map fun cs => ⟨cs⟩

/-- The `data` object of a successful fetch-file-as-text envelope. -/
structure FetchTextData where
  file_name : String
  text_content : String
  mime_type : String
deriving Repr, DecidableEq

/-- Decode phase of `fetch_klicstudio_file_as_text` on a successfully
fetched body: UTF-8 first, latin-1 on a UnicodeDecodeError, and the
undecodable-content error envelope only when latin-1 fails as well.
`file_name` and `mime_type` stand for the URL basename and the
content-type header, which are computed outside the decode logic. -/
def fetch_klicstudio_file_as_text (file_name mime_type : String) (bs : List Byte) :
    Envelope (Option FetchTextData) :=
  match utf8Decode bs with
  | some t => ⟨0, "文件内容获取成功", some ⟨file_name, t, mime_type⟩⟩
  | none =>
    match latin1Decode bs with
    | some t => ⟨0, "文件内容获取成功", some ⟨file_name, t, mime_type⟩⟩
    | none => ⟨1, "文件内容无法解码为文本", none⟩

end KlicStudio

namespace KlicStudio

/-- C4: for every `new_url` starting with `http://` or `https://`,
Set Base URL succeeds with `error = 0` and a subsequent Get Base URL
reports `new_url` with all trailing slashes stripped. -/
theorem set_then_get_returns_stripped (st new_url : String)
    (h : pyStartsWith new_url "http://" = true ∨ pyStartsWith new_url "https://" = true) :
    (set_klicstudio_base_url st new_url).2.error = 0 ∧
    (get_klicstudio_base_url (set_klicstudio_base_url st new_url).1).data.klicstudio_base_url
      = pyRstripSlash new_url := by
  have hv : validBaseUrl new_url = true := by
    unfold validBaseUrl
    rcases h with h | h <;> simp [h]
  simp [set_klicstudio_base_url, get_klicstudio_base_url, hv]

/-- Concrete instance of `set_then_get_returns_stripped`. -/
theorem set_then_get_returns_stripped_witness :
    (set_klicstudio_base_url "http://127.0.0.1:8888" "http://example.com///").2.error = 0 ∧
    (get_klicstudio_base_url
        (set_klicstudio_base_url "http://127.0.0.1:8888" "http://example.com///").1).data.klicstudio_base_url
      = pyRstripSlash "http://example.com///" :=
  set_then_get_returns_stripped "http://127.0.0.1:8888" "http://example.com///"
    (Or.inl (by decide))

/-- C5: for every `new_url` not starting with `http://` or `https://`,
Set Base URL returns `error = 1` with the previous URL in the data, the
state is unchanged, and a subsequent Get Base URL answers exactly as
before the call. -/
theorem set_rejects_invalid_and_keeps_state (st new_url : String)
    (h : ¬(pyStartsWith new_url "http://" = true ∨ pyStartsWith new_url "https://" = true)) :
    set_klicstudio_base_url st new_url
      = (st, ⟨1, "设置失败：URL 格式不正确，应以 http:// 或 https:// 开头。", .failure st⟩) ∧
    get_klicstudio_base_url (set_klicstudio_base_url st new_url).1
      = get_klicstudio_base_url st := by
  have hv : validBaseUrl new_url = false := by
    unfold validBaseUrl
    push_neg at h
    simp [h.1, h.2]
  constructor
  · simp [set_klicstudio_base_url, hv]
  · simp [set_klicstudio_base_url, hv]

theorem rdropWhile_append_of_eq_self {α : Type} (p : α → Bool) (l₁ l₂ : List α)
    (h : List.rdropWhile p l₁ = l₁) :
    List.rdropWhile p (l₁ ++ l₂) = l₁ ++ List.rdropWhile p l₂ := by
  induction l₂ using List.reverseRecOn with
  | nil => simpa using h
  | append_singleton l a ih =>
    by_cases hp : p a = true
    · rw [← List.append_assoc, List.rdropWhile_concat_pos p _ a hp,
          List.rdropWhile_concat_pos p _ a hp, ih]
    · rw [← List.append_assoc, List.rdropWhile_concat_neg p _ a (by simpa using hp),
          List.rdropWhile_concat_neg p _ a (by simpa using hp), List.append_assoc]

theorem pyRstripSlash_no_trailing (s : String) :
    endsWithSlash (pyRstripSlash s) = false := by
  have hdata : (pyRstripSlash s).data = List.rdropWhile (fun c => c == '/') s.data := rfl
  unfold endsWithSlash
  rw [hdata]
  cases hl : (List.rdropWhile (fun c => c == '/') s.data).getLast? with
  | none => rfl
  | some c =>
    have hne : List.rdropWhile (fun c => c == '/') s.data ≠ [] := by
      intro hnil
      rw [hnil] at hl
      exact Option.noConfusion hl
    have hlast := List.rdropWhile_last_not (fun c => c == '/') s.data hne
    rw [List.getLast?_eq_getLast _ hne] at hl
    have hc : c = (List.rdropWhile (fun c => c == '/') s.data).getLast hne :=
      (Option.some.injEq _ _).mp hl.symm
    subst hc
    simpa using hlast

theorem pyRstripSlash_keeps_scheme (u : String) (hu : validBaseUrl u = true) :
    pyStartsWith (pyRstripSlash u) "http:" = true ∨
    pyStartsWith (pyRstripSlash u) "https:" = true := by
  have hcases : pyStartsWith u "http://" = true ∨ pyStartsWith u "https://" = true := by
    unfold validBaseUrl at hu
    rcases Bool.or_eq_true_iff.mp hu with h | h
    · exact Or.inl h
    · exact Or.inr h
  rcases hcases with h | h
  · left
    obtain ⟨t, ht⟩ := List.isPrefixOf_iff_prefix.mp h
    have hsplit : u.data = "http:".data ++ (['/', '/'] ++ t) := by
      rw [← ht]; rfl
    have hstrip : (pyRstripSlash u).data
        = "http:".data ++ List.rdropWhile (fun c => c == '/') (['/', '/'] ++ t) := by
      show List.rdropWhile (fun c => c == '/') u.data = _
      rw [hsplit]
      exact rdropWhile_append_of_eq_self _ _ _ (by decide)
    unfold pyStartsWith
    rw [hstrip]
    exact List.isPrefixOf_iff_prefix.mpr (List.prefix_append _ _)
  · right
    obtain ⟨t, ht⟩ := List.isPrefixOf_iff_prefix.mp h
    have hsplit : u.data = "https:".data ++ (['/', '/'] ++ t) := by
      rw [← ht]; rfl
    have hstrip : (pyRstripSlash u).data
        = "https:".data ++ List.rdropWhile (fun c => c == '/') (['/', '/'] ++ t) := by
      show List.rdropWhile (fun c => c == '/') u.data = _
      rw [hsplit]
      exact rdropWhile_append_of_eq_self _ _ _ (by decide)
    unfold pyStartsWith
    rw [hstrip]
    exact List.isPrefixOf_iff_prefix.mpr (List.prefix_append _ _)

theorem set_preserves_baseUrlSchemeOk (st u : String) (h : baseUrlSchemeOk st) :
    baseUrlSchemeOk (set_klicstudio_base_url st u).1 := by
  unfold set_klicstudio_base_url
  by_cases hv : validBaseUrl u = true
  · simp only [hv, if_true]
    exact ⟨pyRstripSlash_keeps_scheme u hv, pyRstripSlash_no_trailing u⟩
  · simp only [Bool.not_eq_true] at hv
    simp only [hv, Bool.false_eq_true, if_false]
    exact h

/-- Concrete instance of `set_rejects_invalid_and_keeps_state`. -/
theorem set_rejects_invalid_and_keeps_state_witness :
    set_klicstudio_base_url "http://127.0.0.1:8888" "ftp://example.com"
      = ("http://127.0.0.1:8888",
         ⟨1, "设置失败：URL 格式不正确，应以 http:// 或 https:// 开头。",
          .failure "http://127.0.0.1:8888"⟩) ∧
    get_klicstudio_base_url
        (set_klicstudio_base_url "http://127.0.0.1:8888" "ftp://example.com").1
      = get_klicstudio_base_url "http://127.0.0.1:8888" :=
  set_rejects_invalid_and_keeps_state "http://127.0.0.1:8888" "ftp://example.com"
    (by decide)

/-- C6 counterexample: calling Set Base URL with the accepted argument
`http://` succeeds but stores `http:` — the trailing-slash strip removes the
slashes of the scheme itself, so the stored value no longer begins with
`http://` or `https://` and the claimed invariant fails. -/
theorem base_url_invariant_counterexample :
    (set_klicstudio_base_url DEFAULT_KLICSTUDIO_URL "http://").2.error = 0 ∧
    applySetCalls DEFAULT_KLICSTUDIO_URL ["http://"] = "http:" ∧
    ¬(pyStartsWith (applySetCalls DEFAULT_KLICSTUDIO_URL ["http://"]) "http://" = true ∨
      pyStartsWith (applySetCalls DEFAULT_KLICSTUDIO_URL ["http://"]) "https://" = true) := by
  decide

/-- C6 amended: after any sequence of Set Base URL calls starting from the
default, the stored base URL always begins with `http:` or `https:` and has
no trailing slash. -/
theorem base_url_invariant_amended (urls : List String) :
    (pyStartsWith (applySetCalls DEFAULT_KLICSTUDIO_URL urls) "http:" = true ∨
     pyStartsWith (applySetCalls DEFAULT_KLICSTUDIO_URL urls) "https:" = true) ∧
    endsWithSlash (applySetCalls DEFAULT_KLICSTUDIO_URL urls) = false := by
  have hgen : ∀ (us : List String) (st : String),
      baseUrlSchemeOk st → baseUrlSchemeOk (applySetCalls st us) := by
    intro us
    induction us with
    | nil => intro st h; exact h
    | cons u rest ih =>
      intro st h
      exact ih _ (set_preserves_baseUrlSchemeOk st u h)
  exact hgen urls DEFAULT_KLICSTUDIO_URL ⟨Or.inl (by decide), by decide⟩

theorem pyGetItem_pySetItem_eq (d : Payload) (k : String) (v : PayloadVal) :
    pyGetItem (pySetItem d k v) k = some v := by
  induction d with
  | nil => simp [pySetItem, pyGetItem]
  | cons hd rest ih =>
    obtain ⟨k0, v0⟩ := hd
    by_cases hk : k0 = k
    · simp [pySetItem, pyGetItem, hk]
    · simp [pySetItem, pyGetItem, hk, ih]

theorem pyGetItem_pySetItem_ne (d : Payload) (k k' : String) (v : PayloadVal)
    (h : ¬k = k') :
    pyGetItem (pySetItem d k v) k' = pyGetItem d k' := by
  induction d with
  | nil => simp [pySetItem, pyGetItem, h]
  | cons hd rest ih =>
    obtain ⟨k0, v0⟩ := hd
    by_cases hk : k0 = k
    · subst hk
      simp [pySetItem, pyGetItem, h]
    · by_cases hk' : k0 = k'
      · subst hk'
        simp [pySetItem, pyGetItem, hk, Ne.symm h]
      · simp [pySetItem, pyGetItem, hk, hk', ih]

theorem getItem_taskPayloadOriginLang_ne (p : Payload) (o t : Option String)
    (lang : String) (k : String) (h : ¬"origin_lang" = k) :
    pyGetItem (taskPayloadOriginLang p o t lang) k = pyGetItem p k := by
  unfold taskPayloadOriginLang
  split
  · exact pyGetItem_pySetItem_ne _ _ _ _ h
  · split
    · exact pyGetItem_pySetItem_ne _ _ _ _ h
    · rfl

theorem getItem_taskPayloadTargetLang_ne (p : Payload) (t : Option String)
    (k : String) (h : ¬"target_lang" = k) :
    pyGetItem (taskPayloadTargetLang p t) k = pyGetItem p k := by
  unfold taskPayloadTargetLang
  split
  · exact pyGetItem_pySetItem_ne _ _ _ _ h
  · rfl

theorem getItem_taskPayloadTts_ne (p : Payload) (c : Option Int) (u : Option String)
    (k : String) (h1 : ¬"tts_voice_code" = k) (h2 : ¬"tts_voice_clone_src_file_url" = k) :
    pyGetItem (taskPayloadTts p c u) k = pyGetItem p k := by
  unfold taskPayloadTts
  split
  · cases c with
    | some c0 =>
      simp only []
      split
      · rw [pyGetItem_pySetItem_ne _ _ _ _ h2, pyGetItem_pySetItem_ne _ _ _ _ h1]
      · exact pyGetItem_pySetItem_ne _ _ _ _ h1
    | none =>
      simp only []
      split
      · exact pyGetItem_pySetItem_ne _ _ _ _ h2
      · rfl
  · rfl

theorem getItem_taskPayloadTitles_ne (p : Payload) (ma mi : Option String)
    (k : String) (h1 : ¬"vertical_major_title" = k) (h2 : ¬"vertical_minor_title" = k) :
    pyGetItem (taskPayloadTitles p ma mi) k = pyGetItem p k := by
  unfold taskPayloadTitles
  cases mi with
  | some t =>
    cases ma with
    | some t' =>
      rw [pyGetItem_pySetItem_ne _ _ _ _ h2, pyGetItem_pySetItem_ne _ _ _ _ h1]
    | none => exact pyGetItem_pySetItem_ne _ _ _ _ h2
  | none =>
    cases ma with
    | some t' => exact pyGetItem_pySetItem_ne _ _ _ _ h1
    | none => rfl

theorem getItem_taskPayloadReplace_ne (p : Payload) (r : Option (List String))
    (k : String) (h : ¬"replace" = k) :
    pyGetItem (taskPayloadReplace p r) k = pyGetItem p k := by
  unfold taskPayloadReplace
  split
  · exact pyGetItem_pySetItem_ne _ _ _ _ h
  · rfl

/-- C3: in every subtitle-task payload, the boolean parameters `bilingual`,
`tts` and `modal_filter` are encoded as the integer `1` when the parameter is
true and `2` when it is false. -/
theorem start_task_bool_flags_encoding
    (media_url_on_klicstudio language : String)
    (origin_lang target_lang : Option String)
    (bilingual : Bool) (translation_subtitle_pos : Int)
    (tts : Bool) (tts_voice_code : Option Int)
    (tts_voice_clone_src_file_url : Option String)
    (modal_filter : Bool) (embed_subtitle_video_type : String)
    (vertical_major_title vertical_minor_title : Option String)
    (replace_words : Option (List String)) :
    pyGetItem (start_klicstudio_subtitle_task_payload media_url_on_klicstudio language
        origin_lang target_lang bilingual translation_subtitle_pos tts tts_voice_code
        tts_voice_clone_src_file_url modal_filter embed_subtitle_video_type
        vertical_major_title vertical_minor_title replace_words) "bilingual"
      = some (.pint (if bilingual then 1 else 2)) ∧
    pyGetItem (start_klicstudio_subtitle_task_payload media_url_on_klicstudio language
        origin_lang target_lang bilingual translation_subtitle_pos tts tts_voice_code
        tts_voice_clone_src_file_url modal_filter embed_subtitle_video_type
        vertical_major_title vertical_minor_title replace_words) "tts"
      = some (.pint (if tts then 1 else 2)) ∧
    pyGetItem (start_klicstudio_subtitle_task_payload media_url_on_klicstudio language
        origin_lang target_lang bilingual translation_subtitle_pos tts tts_voice_code
        tts_voice_clone_src_file_url modal_filter embed_subtitle_video_type
        vertical_major_title vertical_minor_title replace_words) "modal_filter"
      = some (.pint (if modal_filter then 1 else 2)) := by
  refine ⟨?_, ?_, ?_⟩ <;>
    · unfold start_klicstudio_subtitle_task_payload
      rw [getItem_taskPayloadReplace_ne _ _ _ (by decide),
          getItem_taskPayloadTitles_ne _ _ _ _ (by decide) (by decide),
          getItem_taskPayloadTts_ne _ _ _ _ (by decide) (by decide),
          getItem_taskPayloadTargetLang_ne _ _ _ (by decide),
          getItem_taskPayloadOriginLang_ne _ _ _ _ _ (by decide)]
      simp [taskPayloadBase, pyGetItem]

/-- C2 counterexample: with `origin_lang="en"` supplied and `target_lang`
omitted, the upstream payload does contain an `origin_lang` field, against
the claim that neither translation field appears whenever `target_lang` is
not supplied. -/
theorem start_task_translation_fields_counterexample :
    pyGetItem (start_klicstudio_subtitle_task_payload "local:./v.mp4" "zh_cn"
        (some "en") none false 1 false none none false "none" none none none)
      "origin_lang" = some (.pstr "en") ∧
    some (PayloadVal.pstr "en") ≠ (none : Option PayloadVal) := by
  decide

/-- C2 amended: when `target_lang` is not supplied (or empty), the payload
contains no `target_lang` field, and it contains an `origin_lang` field iff
`origin_lang` was supplied non-empty, in which case it equals that argument;
when `target_lang` is supplied non-empty and `origin_lang` is omitted, the
payload field `origin_lang` equals the `language` parameter. -/
theorem start_task_translation_fields_amended
    (media_url_on_klicstudio language : String)
    (origin_lang target_lang : Option String)
    (bilingual : Bool) (translation_subtitle_pos : Int)
    (tts : Bool) (tts_voice_code : Option Int)
    (tts_voice_clone_src_file_url : Option String)
    (modal_filter : Bool) (embed_subtitle_video_type : String)
    (vertical_major_title vertical_minor_title : Option String)
    (replace_words : Option (List String)) :
    (pyTruthyStr target_lang = false →
      pyGetItem (start_klicstudio_subtitle_task_payload media_url_on_klicstudio language
          origin_lang target_lang bilingual translation_subtitle_pos tts tts_voice_code
          tts_voice_clone_src_file_url modal_filter embed_subtitle_video_type
          vertical_major_title vertical_minor_title replace_words) "target_lang" = none ∧
      pyGetItem (start_klicstudio_subtitle_task_payload media_url_on_klicstudio language
          origin_lang target_lang bilingual translation_subtitle_pos tts tts_voice_code
          tts_voice_clone_src_file_url modal_filter embed_subtitle_video_type
          vertical_major_title vertical_minor_title replace_words) "origin_lang"
        = (if pyTruthyStr origin_lang then some (.pstr (origin_lang.getD "")) else none)) ∧
    (pyTruthyStr target_lang = true → origin_lang = none →
      pyGetItem (start_klicstudio_subtitle_task_payload media_url_on_klicstudio language
          origin_lang target_lang bilingual translation_subtitle_pos tts tts_voice_code
          tts_voice_clone_src_file_url modal_filter embed_subtitle_video_type
          vertical_major_title vertical_minor_title replace_words) "origin_lang"
        = some (.pstr language)) := by
  constructor
  · intro ht
    constructor
    · unfold start_klicstudio_subtitle_task_payload
      rw [getItem_taskPayloadReplace_ne _ _ _ (by decide),
          getItem_taskPayloadTitles_ne _ _ _ _ (by decide) (by decide),
          getItem_taskPayloadTts_ne _ _ _ _ (by decide) (by decide)]
      unfold taskPayloadTargetLang
      rw [ht]
      simp only [Bool.false_eq_true, if_false]
      rw [getItem_taskPayloadOriginLang_ne _ _ _ _ _ (by decide)]
      simp [taskPayloadBase, pyGetItem]
    · unfold start_klicstudio_subtitle_task_payload
      rw [getItem_taskPayloadReplace_ne _ _ _ (by decide),
          getItem_taskPayloadTitles_ne _ _ _ _ (by decide) (by decide),
          getItem_taskPayloadTts_ne _ _ _ _ (by decide) (by decide),
          getItem_taskPayloadTargetLang_ne _ _ _ (by decide)]
      unfold taskPayloadOriginLang
      by_cases ho : pyTruthyStr origin_lang = true
      · rw [ho]
        simp only [if_true]
        rw [pyGetItem_pySetItem_eq]
      · simp only [Bool.not_eq_true] at ho
        rw [ho, ht]
        simp only [Bool.false_eq_true, if_false]
        simp [taskPayloadBase, pyGetItem]
  · intro ht ho
    subst ho
    unfold start_klicstudio_subtitle_task_payload
    rw [getItem_taskPayloadReplace_ne _ _ _ (by decide),
        getItem_taskPayloadTitles_ne _ _ _ _ (by decide) (by decide),
        getItem_taskPayloadTts_ne _ _ _ _ (by decide) (by decide),
        getItem_taskPayloadTargetLang_ne _ _ _ (by decide)]
    unfold taskPayloadOriginLang
    rw [ht]
    simp only [pyTruthyStr, Bool.false_eq_true, if_false, if_true]
    rw [pyGetItem_pySetItem_eq]

/-- Concrete instances of `start_task_translation_fields_amended`. -/
theorem start_task_translation_fields_amended_witness :
    pyGetItem (start_klicstudio_subtitle_task_payload "local:./v.mp4" "zh_cn"
        (some "en") none false 1 false none none false "none" none none none)
      "target_lang" = none ∧
    pyGetItem (start_klicstudio_subtitle_task_payload "local:./v.mp4" "en"
        none (some "zh_cn") true 1 false none none false "none" none none none)
      "origin_lang" = some (.pstr "en") := by
  have h1 := (start_task_translation_fields_amended "local:./v.mp4" "zh_cn"
    (some "en") none false 1 false none none false "none" none none none).1 (by decide)
  have h2 := (start_task_translation_fields_amended "local:./v.mp4" "en"
    none (some "zh_cn") true 1 false none none false "none" none none none).2 (by decide) rfl
  exact ⟨h1.1, h2⟩

/-- C7: on a successful task-details response carrying a `data` object, the
adapter appends exactly the two synthesized embed-video links (horizontal
then vertical, at the fixed path pattern keyed by the task id) when
`process_percent = 100`, and leaves the potential-embedded-video list
unchanged otherwise. -/
theorem task_details_embed_urls (base task_id : String) (resp : TaskResp) (d : TaskData)
    (he : resp.error = 0) (hd : resp.data = some d) :
    ∃ d3, (get_klicstudio_subtitle_task_details base task_id resp).data = some d3 ∧
      d3.potential_embedded_video_urls =
        (if d.process_percent = some 100 then
          some ((d.potential_embedded_video_urls.getD []) ++
            [⟨"嵌入字幕的横屏视频 (可能存在)",
              pyRstripSlash base ++ "/api/file/tasks/" ++ task_id
                ++ "/output/horizontal_embed.mp4"⟩,
             ⟨"嵌入字幕的竖屏视频 (可能存在)",
              pyRstripSlash base ++ "/api/file/tasks/" ++ task_id
                ++ "/output/vertical_embed.mp4"⟩])
         else d.potential_embedded_video_urls) := by
  unfold get_klicstudio_subtitle_task_details horizontalEmbedEntry verticalEmbedEntry
  rw [he, hd]
  by_cases hp : d.process_percent = some 100 <;>
    simp [hp]

/-- Concrete instance of `task_details_embed_urls` at a completed task. -/
theorem task_details_embed_urls_witness :
    ∃ d3, (get_klicstudio_subtitle_task_details "http://127.0.0.1:8888" "abc"
        ⟨0, "成功", some ⟨some 100, .absent, .absent, none⟩⟩).data = some d3 ∧
      d3.potential_embedded_video_urls =
        (if (some 100 : Option Int) = some 100 then
          some (((none : Option (List EmbedEntry)).getD []) ++
            [⟨"嵌入字幕的横屏视频 (可能存在)",
              pyRstripSlash "http://127.0.0.1:8888" ++ "/api/file/tasks/" ++ "abc"
                ++ "/output/horizontal_embed.mp4"⟩,
             ⟨"嵌入字幕的竖屏视频 (可能存在)",
              pyRstripSlash "http://127.0.0.1:8888" ++ "/api/file/tasks/" ++ "abc"
                ++ "/output/vertical_embed.mp4"⟩])
         else none) :=
  task_details_embed_urls "http://127.0.0.1:8888" "abc"
    ⟨0, "成功", some ⟨some 100, .absent, .absent, none⟩⟩
    ⟨some 100, .absent, .absent, none⟩ rfl rfl

theorem rewriteItemUrl_eq (base : String) (hb : pyRstripSlash base = base) (u : UrlField) :
    rewriteItemUrl base u =
      (match u with
       | .str s =>
           .str (if pyStartsWith s "http" then s
                 else if pyStartsWith s "/" then base ++ s else base ++ "/" ++ s)
       | x => x) := by
  cases u with
  | str s =>
    simp only [rewriteItemUrl, absolutizeUrl, hb]
    by_cases h1 : pyStartsWith s "http" = true
    · simp [h1]
    · simp only [Bool.not_eq_true] at h1
      by_cases h2 : pyStartsWith s "/" = true
      · simp [h1, h2]
      · simp only [Bool.not_eq_true] at h2
        simp [h1, h2]
  | absent => rfl
  | notStr => rfl

/-- C8 counterexample: an empty-string `speech_download_url` does not start
with `http`, yet the adapter leaves it unchanged instead of rewriting it to
`base_url + "/" + ""`, because the source additionally requires the string
to be truthy (non-empty). -/
theorem task_details_speech_empty_counterexample :
    ∃ d3, (get_klicstudio_subtitle_task_details "http://127.0.0.1:8888" "t1"
        ⟨0, "成功", some ⟨none, .absent, .str "", none⟩⟩).data = some d3 ∧
      d3.speech_download_url = .str "" ∧
      pyStartsWith "" "http" = false ∧
      UrlField.str "" ≠ UrlField.str ("http://127.0.0.1:8888" ++ "/" ++ "") :=
  ⟨_, rfl, rfl, by decide, by decide⟩

/-- C8 amended: every relative `subtitle_info` download URL (a string not
starting with `http`) is absolutized against the current base URL with a
single slash at the join, in both leading-slash and non-leading-slash
forms; `speech_download_url` gets the same rewrite provided it is also
non-empty, while an empty `speech_download_url` is left unchanged; in
particular both `/foo/bar.srt` and `foo/bar.srt` become
`base_url + "/foo/bar.srt"`. -/
theorem task_details_absolutizes_relative_urls
    (base task_id : String) (resp : TaskResp) (d : TaskData)
    (hb : pyRstripSlash base = base)
    (he : resp.error = 0) (hd : resp.data = some d) :
    (∃ d3, (get_klicstudio_subtitle_task_details base task_id resp).data = some d3 ∧
      (∀ l, d.subtitle_info = .items l →
        d3.subtitle_info = .items (l.map fun it =>
          match it.download_url with
          | .str s =>
              ⟨.str (if pyStartsWith s "http" then s
                     else if pyStartsWith s "/" then base ++ s else base ++ "/" ++ s)⟩
          | u => ⟨u⟩)) ∧
      (∀ s, d.speech_download_url = .str s → ¬s = "" → pyStartsWith s "http" = false →
        d3.speech_download_url
          = .str (if pyStartsWith s "/" then base ++ s else base ++ "/" ++ s)) ∧
      (d.speech_download_url = .str "" → d3.speech_download_url = .str "")) ∧
    absolutizeUrl base "/foo/bar.srt" = base ++ "/foo/bar.srt" ∧
    absolutizeUrl base "foo/bar.srt" = base ++ "/foo/bar.srt" := by
  have hf : (fun it : SubItem => (⟨rewriteItemUrl base it.download_url⟩ : SubItem))
      = (fun it : SubItem =>
          match it.download_url with
          | .str s =>
              (⟨.str (if pyStartsWith s "http" then s
                     else if pyStartsWith s "/" then base ++ s else base ++ "/" ++ s)⟩ : SubItem)
          | u => ⟨u⟩) := by
    funext it
    rw [rewriteItemUrl_eq base hb]
    cases it.download_url <;> rfl
  refine ⟨?_, ?_, ?_⟩
  · unfold get_klicstudio_subtitle_task_details
    rw [he, hd]
    simp only [reduceIte]
    refine ⟨_, rfl, ?_, ?_, ?_⟩
    · intro l hl
      by_cases hp : d.process_percent = some 100 <;>
        · simp only [hp, reduceIte, if_true, Bool.false_eq_true, if_false]
          simp only [hl]
          rw [hf]
    · intro s hs hne hhttp
      have hne' : (s == "") = false := by
        cases hsb : s == "" with
        | true => exact absurd (by simpa using hsb) hne
        | false => rfl
      by_cases hp : d.process_percent = some 100 <;>
        · simp only [hp, reduceIte, if_true, Bool.false_eq_true, if_false]
          simp only [hs, rewriteSpeechUrl, absolutizeUrl, hb, hhttp, hne']
          simp
    · intro hs
      by_cases hp : d.process_percent = some 100 <;>
        · simp only [hp, reduceIte, if_true, Bool.false_eq_true, if_false]
          simp only [hs, rewriteSpeechUrl]
          simp
  · simp only [absolutizeUrl, hb]
    have h0 : pyStartsWith "/foo/bar.srt" "/" = true := by decide
    simp [h0]
  · simp only [absolutizeUrl, hb]
    have h1 : pyStartsWith "foo/bar.srt" "/" = false := by decide
    simp only [h1, Bool.false_eq_true, if_false]
    apply String.ext
    simp only [String.data_append, List.append_assoc]
    congr 1

/-- Concrete instance of `task_details_absolutizes_relative_urls`. -/
theorem task_details_absolutizes_relative_urls_witness :
    (∃ d3, (get_klicstudio_subtitle_task_details "http://127.0.0.1:8888" "t1"
        ⟨0, "成功", some ⟨none, .items [⟨.str "/a.srt"⟩, ⟨.str "b.srt"⟩], .str "sp.mp3", none⟩⟩).data
          = some d3 ∧
      (∀ l, (⟨none, .items [⟨.str "/a.srt"⟩, ⟨.str "b.srt"⟩], .str "sp.mp3", none⟩ : TaskData).subtitle_info = .items l →
        d3.subtitle_info = .items (l.map fun it =>
          match it.download_url with
          | .str s =>
              ⟨.str (if pyStartsWith s "http" then s
                     else if pyStartsWith s "/" then "http://127.0.0.1:8888" ++ s
                     else "http://127.0.0.1:8888" ++ "/" ++ s)⟩
          | u => ⟨u⟩)) ∧
      (∀ s, (⟨none, .items [⟨.str "/a.srt"⟩, ⟨.str "b.srt"⟩], .str "sp.mp3", none⟩ : TaskData).speech_download_url = .str s →
          ¬s = "" → pyStartsWith s "http" = false →
        d3.speech_download_url
          = .str (if pyStartsWith s "/" then "http://127.0.0.1:8888" ++ s
                  else "http://127.0.0.1:8888" ++ "/" ++ s)) ∧
      ((⟨none, .items [⟨.str "/a.srt"⟩, ⟨.str "b.srt"⟩], .str "sp.mp3", none⟩ : TaskData).speech_download_url = .str "" →
        d3.speech_download_url = .str "")) ∧
    absolutizeUrl "http://127.0.0.1:8888" "/foo/bar.srt"
      = "http://127.0.0.1:8888" ++ "/foo/bar.srt" ∧
    absolutizeUrl "http://127.0.0.1:8888" "foo/bar.srt"
      = "http://127.0.0.1:8888" ++ "/foo/bar.srt" :=
  task_details_absolutizes_relative_urls "http://127.0.0.1:8888" "t1"
    ⟨0, "成功", some ⟨none, .items [⟨.str "/a.srt"⟩, ⟨.str "b.srt"⟩], .str "sp.mp3", none⟩⟩
    ⟨none, .items [⟨.str "/a.srt"⟩, ⟨.str "b.srt"⟩], .str "sp.mp3", none⟩
    (by decide) rfl rfl

/-- C1: the source guards the file-path normalization with
`isinstance(file_path, str)` and then indexes `[0]`, so a string value is
truncated to its first character while a single-element list is left
untouched — the opposite of the claimed (and spec-documented)
normalization. This evaluates the embedded upload post-processing at both
shapes of input. -/
theorem upload_file_path_normalization_bug :
    (upload_file_to_klicstudio "http://127.0.0.1:8888" ["/tmp/v.mp4"] "/tmp/v.mp4"
        ⟨0, "上传成功", some ⟨some (.fstr "./uploads/v.mp4")⟩⟩).2.2
      = ⟨0, "上传成功", some ⟨some (.fstr ".")⟩⟩ ∧
    (upload_file_to_klicstudio "http://127.0.0.1:8888" ["/tmp/v.mp4"] "/tmp/v.mp4"
        ⟨0, "上传成功", some ⟨some (.flist ["./uploads/v.mp4"])⟩⟩).2.2
      = ⟨0, "上传成功", some ⟨some (.flist ["./uploads/v.mp4"])⟩⟩ ∧
    FPVal.fstr "." ≠ FPVal.fstr "./uploads/v.mp4" ∧
    FPVal.flist ["./uploads/v.mp4"] ≠ FPVal.fstr "./uploads/v.mp4" := by
  decide

/-- C9: for every path absent from the adapter filesystem, Upload File
returns the not-found `error = 1` envelope, performs no upstream HTTP call
(the flag is `false`), and leaves the adapter base-URL state unchanged. -/
theorem upload_file_missing_path (st : String) (fs : List String) (path : String)
    (upstream : UploadResp) (h : path ∉ fs) :
    upload_file_to_klicstudio st fs path upstream
      = (st, false, ⟨1, "文件未找到: " ++ path, none⟩) := by
  unfold upload_file_to_klicstudio
  simp [h]

/-- Concrete instance of `upload_file_missing_path`. -/
theorem upload_file_missing_path_witness :
    upload_file_to_klicstudio "http://127.0.0.1:8888" [] "/tmp/missing.mp4"
        ⟨0, "成功", none⟩
      = ("http://127.0.0.1:8888", false, ⟨1, "文件未找到: " ++ "/tmp/missing.mp4", none⟩) :=
  upload_file_missing_path "http://127.0.0.1:8888" [] "/tmp/missing.mp4"
    ⟨0, "成功", none⟩ (by simp)

/-- C10: latin-1 decoding succeeds on every byte sequence — each byte value
is below `0x100`, hence below the surrogate range and a valid code point —
so the undecodable-content error branch of Fetch File As Text is
unreachable, and every successfully fetched body yields an `error = 0`
envelope carrying some decoded text. -/
theorem fetch_text_decode_total (file_name mime_type : String) (bs : List Byte) :
    (fetch_klicstudio_file_as_text file_name mime_type bs).error = 0 ∧
    ∃ t, (fetch_klicstudio_file_as_text file_name mime_type bs).data
        = some ⟨file_name, t, mime_type⟩ := by
  have hl : ∃ cs, latin1DecodeList bs = some cs := by
    induction bs with
    | nil => exact ⟨[], rfl⟩
    | cons b rest ih =>
      obtain ⟨cs, hcs⟩ := ih
      have hv : Nat.isValidChar b.val := by
        have hb := b.isLt
        exact Or.inl (by omega)
      refine ⟨Char.ofNat b.val :: cs, ?_⟩
      simp [latin1DecodeList, latin1DecodeByte, hv, hcs]
  obtain ⟨cs, hcs⟩ := hl
  cases hu : utf8Decode bs with
  | some t =>
    unfold fetch_klicstudio_file_as_text
    rw [hu]
    exact ⟨rfl, t, rfl⟩
  | none =>
    unfold fetch_klicstudio_file_as_text
    rw [hu]
    have hlat : latin1Decode bs = some ⟨cs⟩ := by
      simp [latin1Decode, hcs]
    rw [hlat]
    exact ⟨rfl, ⟨cs⟩, rfl⟩

end KlicStudio
